import Mathlib

/-!
Shallow embedding of the `glf32` math library, the WebGL buffer-upload
bridge, and the orbit `Camera` of the `webgl-point-cloud` repository.

Conventions of the embedding:
* Go `float32` arithmetic is modelled over `ℝ`; `math.Sin/Cos/Tan/Sqrt`
  become `Real.sin/cos/tan/sqrt`.
* Go slices (`Vec3`, `Mat4`, vertex arrays) become `List ℝ`; in-bounds
  slice indexing `v[i]` becomes `List.getD v i 0` (all accesses below are
  guarded by the same length checks the Go code performs, so the default
  value is never read on the paths the Go code executes).
* A Go `panic` becomes `Except.error` carrying the panic message; the
  normal return value becomes `Except.ok`.
* `syscall/js` effects of the buffer-upload bridge are modelled as a pure
  trace of `GLCall`s recorded in the returned `Except.ok` payload, so an
  error result means no GL call was issued.
-/

namespace Glf32

/-- Embedding of `glf32.Identity`: 4x4 identity matrix in column-major order. -/
def Identity : List ℝ :=
  [1, 0, 0, 0,
   0, 1, 0, 0,
   0, 0, 1, 0,
   0, 0, 0, 1]

/-- Embedding of `glf32.Translate`: column-major translation matrix. -/
def Translate (x y z : ℝ) : List ℝ :=
  [1, 0, 0, 0,
   0, 1, 0, 0,
   0, 0, 1, 0,
   x, y, z, 1]

/-- Component-wise body of `glf32.Subtract` (the Go function past its length
guard; the guard itself lives in `Subtract`). -/
def subtract3 (a b : List ℝ) : List ℝ :=
  [a.getD 0 0 - b.getD 0 0, a.getD 1 0 - b.getD 1 0, a.getD 2 0 - b.getD 2 0]

/-- Embedding of `glf32.Subtract`, including its arity panic. -/
def Subtract (a b : List ℝ) : Except String (List ℝ) :=
  if a.length = 3 ∧ b.length = 3 then .ok (subtract3 a b)
  else .error "Subtract: input vectors must be Vec3 (length 3)"

/-- Magnitude computed exactly as `glf32.Normalize` computes its local `l`:
`sqrt(v[0]*v[0] + v[1]*v[1] + v[2]*v[2])`. -/
noncomputable def norm3 (v : List ℝ) : ℝ :=
  Real.sqrt (v.getD 0 0 * v.getD 0 0 + v.getD 1 0 * v.getD 1 0 + v.getD 2 0 * v.getD 2 0)

/-- Body of `glf32.Normalize` past its length guard: divide by the magnitude
when it is positive, otherwise return the zero vector. -/
noncomputable def normalize3 (v : List ℝ) : List ℝ :=
  let l := norm3 v
  if l > 0 then [v.getD 0 0 / l, v.getD 1 0 / l, v.getD 2 0 / l]
  else [0, 0, 0]

/-- Embedding of `glf32.Normalize`, including its arity panic. -/
noncomputable def Normalize (v : List ℝ) : Except String (List ℝ) :=
  if v.length = 3 then .ok (normalize3 v)
  else .error "Normalize: input vector must be Vec3 (length 3)"

/-- Body of `glf32.Cross` past its length guard. -/
def cross3 (a b : List ℝ) : List ℝ :=
  [a.getD 1 0 * b.getD 2 0 - a.getD 2 0 * b.getD 1 0,
   a.getD 2 0 * b.getD 0 0 - a.getD 0 0 * b.getD 2 0,
   a.getD 0 0 * b.getD 1 0 - a.getD 1 0 * b.getD 0 0]

/-- Embedding of `glf32.Cross`, including its arity panic. -/
def Cross (a b : List ℝ) : Except String (List ℝ) :=
  if a.length = 3 ∧ b.length = 3 then .ok (cross3 a b)
  else .error "Cross: input vectors must be Vec3 (length 3)"

/-- Body of `glf32.Dot` past its length guard. -/
def dot3 (a b : List ℝ) : ℝ :=
  a.getD 0 0 * b.getD 0 0 + a.getD 1 0 * b.getD 1 0 + a.getD 2 0 * b.getD 2 0

/-- Embedding of `glf32.Dot`, including its arity panic. -/
def Dot (a b : List ℝ) : Except String ℝ :=
  if a.length = 3 ∧ b.length = 3 then .ok (dot3 a b)
  else .error "Dot: input vectors must be Vec3 (length 3)"

/-- Embedding of `glf32.RotateX`. -/
noncomputable def RotateX (angle : ℝ) : List ℝ :=
  let s := Real.sin angle
  let c := Real.cos angle
  [1, 0, 0, 0,
   0, c, s, 0,
   0, -s, c, 0,
   0, 0, 0, 1]

/-- Embedding of `glf32.RotateY`. -/
noncomputable def RotateY (angle : ℝ) : List ℝ :=
  let s := Real.sin angle
  let c := Real.cos angle
  [c, 0, -s, 0,
   0, 1, 0, 0,
   s, 0, c, 0,
   0, 0, 0, 1]

/-- Embedding of `glf32.RotateZ`. -/
noncomputable def RotateZ (angle : ℝ) : List ℝ :=
  let s := Real.sin angle
  let c := Real.cos angle
  [c, s, 0, 0,
   -s, c, 0, 0,
   0, 0, 1, 0,
   0, 0, 0, 1]

/-- Body of `glf32.LookAt` past its length guard.  The Go body calls the
guarded `Subtract`/`Normalize`/`Cross`/`Dot`, but every vector involved has
length 3 by construction, so those inner guards never fire and the body is
equivalent to this composition of the unguarded cores. -/
noncomputable def lookAtCore (eye center up : List ℝ) : List ℝ :=
  let f := normalize3 (subtract3 center eye)
  let s := normalize3 (cross3 f up)
  let u := cross3 s f
  let tx := -(dot3 s eye)
  let ty := -(dot3 u eye)
  let tz := dot3 f eye
  [s.getD 0 0, u.getD 0 0, -(f.getD 0 0), 0,
   s.getD 1 0, u.getD 1 0, -(f.getD 1 0), 0,
   s.getD 2 0, u.getD 2 0, -(f.getD 2 0), 0,
   tx, ty, tz, 1]

/-- Embedding of `glf32.LookAt`, including its arity panic. -/
noncomputable def LookAt (eye center up : List ℝ) : Except String (List ℝ) :=
  if eye.length = 3 ∧ center.length = 3 ∧ up.length = 3 then
    .ok (lookAtCore eye center up)
  else .error "LookAt: input vectors must be Vec3 (length 3)"

/-- Embedding of `glf32.Perspective`. -/
noncomputable def Perspective (fov aspect near far : ℝ) : List ℝ :=
  let f := 1 / Real.tan (fov / 2)
  let nf := 1 / (near - far)
  [f / aspect, 0, 0, 0,
   0, f, 0, 0,
   0, 0, (far + near) * nf, -1,
   0, 0, (2 * far * near) * nf, 0]

/-- Body of `glf32.MultiplyMatrices` past its length guard.  The Go triple
loop writes `c[j*4+i] = Σ_k a[k*4+i]*b[j*4+k]`, accumulating with `+=` in
increasing `k`; enumerating the result positions `idx = j*4+i` for
`idx = 0..15` gives `i = idx % 4`, `j = idx / 4`. -/
def mulCore (a b : List ℝ) : List ℝ :=
  (List.range 16).map fun idx =>
    (List.range 4).foldl
      (fun acc k => acc + a.getD (k * 4 + idx % 4) 0 * b.getD (idx / 4 * 4 + k) 0) 0

/-- Embedding of `glf32.MultiplyMatrices`, including its arity panic. -/
def MultiplyMatrices (a b : List ℝ) : Except String (List ℝ) :=
  if a.length = 16 ∧ b.length = 16 then .ok (mulCore a b)
  else .error "MultiplyMatrices: input matrices must be Mat4 (length 16)"

/-- Per-vertex body of `glf32.TransformVertices`: treat `(x,y,z)` as the
homogeneous point `(x,y,z,1)`, multiply by the column-major matrix `m`, and
divide by the resulting `w` unless it is zero, in which case the vertex is
mapped to the origin. -/
noncomputable def transformTriple (m : List ℝ) (x y z : ℝ) : ℝ × ℝ × ℝ :=
  let tx := m.getD 0 0 * x + m.getD 4 0 * y + m.getD 8 0 * z + m.getD 12 0 * 1
  let ty := m.getD 1 0 * x + m.getD 5 0 * y + m.getD 9 0 * z + m.getD 13 0 * 1
  let tz := m.getD 2 0 * x + m.getD 6 0 * y + m.getD 10 0 * z + m.getD 14 0 * 1
  let tw := m.getD 3 0 * x + m.getD 7 0 * y + m.getD 11 0 * z + m.getD 15 0 * 1
  if tw ≠ 0 then (tx / tw, ty / tw, tz / tw) else (0, 0, 0)

/-- Loop of `glf32.TransformVertices` over consecutive coordinate triples.
The catch-all case (a leftover of fewer than 3 elements) is unreachable
under the `length % 3 = 0` guard and leaves the remainder untouched, which
matches the Go in-place update. -/
noncomputable def tvCore (m : List ℝ) : List ℝ → List ℝ
  | x :: y :: z :: rest =>
      let t := transformTriple m x y z
      t.1 :: t.2.1 :: t.2.2 :: tvCore m rest
  | other => other

/-- Embedding of `glf32.TransformVertices`, including its two panics,
checked in the order the Go code checks them. -/
noncomputable def TransformVertices (coords m : List ℝ) : Except String (List ℝ) :=
  if m.length = 16 then
    if coords.length % 3 = 0 then .ok (tvCore m coords)
    else .error "TransformVertices: coords slice length must be a multiple of 3"
  else .error "TransformVertices: transformation matrix must be Mat4 (length 16)"

/-- One WebGL/JS interaction performed by `glf32.UploadSliceToGL`, in the
order the Go code performs them. -/
inductive GLCall where
  | createBuffer : GLCall
  | bindBuffer (target : String) : GLCall
  | copyBytesToJS (byteLen : ℕ) : GLCall
  | newTypedArray (typedArrayType : String) : GLCall
  | bufferData (target : String) (typedArrayType : String) (byteLen : ℕ) : GLCall
  deriving DecidableEq, Repr

/-- A host-side Go slice handed to `glf32.UploadSliceToGL`.  The Go function
inspects the slice with reflection; the three supported element kinds are
`float32`, `uint16` and `uint32`, and any other element kind reaches the
`default` branch of its `switch`.  For `float32` data the element values are
modelled over `ℝ`; for the integer kinds over `ℕ` (only lengths matter for
the upload protocol). -/
inductive HostSlice where
  | f32 (data : List ℝ) : HostSlice
  | u16 (data : List ℕ) : HostSlice
  | u32 (data : List ℕ) : HostSlice
  | unsupported (typeName : String) (len : ℕ) : HostSlice

/-- Length of a host slice, `reflect.Value.Len()` in the Go code. -/
def HostSlice.len : HostSlice → ℕ
  | .f32 d => d.length
  | .u16 d => d.length
  | .u32 d => d.length
  | .unsupported _ n => n

/-- Element size in bytes of a host slice (4 for float32, 2 for uint16, 4 for
uint32); stated from the spec's byte-exactness requirement for comparison
with the code's staged byte counts. -/
def HostSlice.elemSize : HostSlice → ℕ
  | .f32 _ => 4
  | .u16 _ => 2
  | .u32 _ => 4
  | .unsupported _ _ => 0

/-- JS typed-array name matching the host element type; stated from the
spec's type-exactness requirement for comparison with the code's choice. -/
def HostSlice.typedName : HostSlice → String
  | .f32 _ => "Float32Array"
  | .u16 _ => "Uint16Array"
  | .u32 _ => "Uint32Array"
  | .unsupported _ _ => ""

/-- Whether the host slice's element kind is one the Go `switch` supports. -/
def HostSlice.supported : HostSlice → Bool
  | .unsupported _ _ => false
  | _ => true

/-- Result of a successful `glf32.UploadSliceToGL`: the staged byte count,
the JS typed-array type used for the GPU-side view, and the trace of GL/JS
calls issued. -/
structure UploadOutcome where
  byteLen : ℕ
  typedArrayType : String
  calls : List GLCall
  deriving DecidableEq, Repr

/-- Embedding of `glf32.UploadSliceToGL`.  The Go code panics on an empty
slice before inspecting the element type, then panics on an unsupported
element type; both panics happen before `createBuffer`, so an error result
carries no GL calls.  On success it stages exactly `len * elemSize` bytes
(`byteLen = v.Len() * 4 / 2 / 4` per kind) and creates a typed view named
after the host element type. -/
def UploadSliceToGL (s : HostSlice) (target : String) : Except String UploadOutcome :=
  if s.len = 0 then .error "UploadSliceToGL: data must be a non-empty slice"
  else
    match s with
    | .f32 d =>
        let byteLen := d.length * 4
        .ok ⟨byteLen, "Float32Array",
          [.createBuffer, .bindBuffer target, .copyBytesToJS byteLen,
           .newTypedArray "Float32Array", .bufferData target "Float32Array" byteLen]⟩
    | .u16 d =>
        let byteLen := d.length * 2
        .ok ⟨byteLen, "Uint16Array",
          [.createBuffer, .bindBuffer target, .copyBytesToJS byteLen,
           .newTypedArray "Uint16Array", .bufferData target "Uint16Array" byteLen]⟩
    | .u32 d =>
        let byteLen := d.length * 4
        .ok ⟨byteLen, "Uint32Array",
          [.createBuffer, .bindBuffer target, .copyBytesToJS byteLen,
           .newTypedArray "Uint32Array", .bufferData target "Uint32Array" byteLen]⟩
    | .unsupported ty _ =>
        .error ("UploadSliceToGL: unsupported slice type " ++ ty)

/-- The standard column-major action of a 16-element matrix on a homogeneous
column vector `(x, y, z, w)`: component `r` of the result is
`Σ_k m[k*4+r] * v_k`.  Stated from the spec's reading of a column-major
`Mat4` for comparison with the code's products. -/
def mulVec4Spec (m : List ℝ) (x y z w : ℝ) : ℝ × ℝ × ℝ × ℝ :=
  (m.getD 0 0 * x + m.getD 4 0 * y + m.getD 8 0 * z + m.getD 12 0 * w,
   m.getD 1 0 * x + m.getD 5 0 * y + m.getD 9 0 * z + m.getD 13 0 * w,
   m.getD 2 0 * x + m.getD 6 0 * y + m.getD 10 0 * z + m.getD 14 0 * w,
   m.getD 3 0 * x + m.getD 7 0 * y + m.getD 11 0 * z + m.getD 15 0 * w)

/-- The action `mulVec4Spec` taking its vector as a tuple, for writing
compositions. -/
def mulVec4SpecP (m : List ℝ) (v : ℝ × ℝ × ℝ × ℝ) : ℝ × ℝ × ℝ × ℝ :=
  mulVec4Spec m v.1 v.2.1 v.2.2.1 v.2.2.2

/-- Modelled on the spec's description of `transformVertices`: treat
`(x, y, z)` as the homogeneous point `(x, y, z, 1)`, multiply by `m` (the
standard column-major action `mulVec4Spec`), and perform the perspective
divide by the resulting `w` unless `w = 0`, in which case the point maps to
the origin. -/
noncomputable def pointTransformSpec (m : List ℝ) (x y z : ℝ) : ℝ × ℝ × ℝ :=
  let p := mulVec4Spec m x y z 1
  if p.2.2.2 = 0 then (0, 0, 0)
  else (p.1 / p.2.2.2, p.2.1 / p.2.2.2, p.2.2.1 / p.2.2.2)

end Glf32

namespace PointCloud

open Glf32

/-- Embedding of the `Camera` struct of `wasm/camera.go` (the spherical
orbit version whose `NewCamera` starts at `rotationX = 0.3`,
`rotationY = -0.5`). -/
structure Camera where
  distance : ℝ
  rotationX : ℝ
  rotationY : ℝ
  zoom : ℝ
  velocityX : ℝ
  velocityY : ℝ
  damping : ℝ
  isMouseDown : Bool
  lastMouseX : ℝ
  lastMouseY : ℝ
  minRotationX : ℝ
  maxRotationX : ℝ
  minZoom : ℝ
  maxZoom : ℝ

/-- Embedding of `NewCamera`. -/
noncomputable def NewCamera (distance : ℝ) : Camera where
  distance := distance
  rotationX := 0.3
  rotationY := -0.5
  zoom := 1.0
  velocityX := 0
  velocityY := 0
  damping := 0.90
  isMouseDown := false
  lastMouseX := 0
  lastMouseY := 0
  minRotationX := -(Real.pi / 2) * 0.999
  maxRotationX := Real.pi / 2 * 0.999
  minZoom := 0.1
  maxZoom := 10.0

/-- Embedding of `Camera.clampRotation`. -/
noncomputable def clampRotation (c : Camera) : Camera :=
  let c1 := if c.rotationX > c.maxRotationX then { c with rotationX := c.maxRotationX } else c
  if c1.rotationX < c1.minRotationX then { c1 with rotationX := c1.minRotationX } else c1

/-- Truncated division remainder with the sign of the dividend, the
behaviour of Go's `math.Mod(x, y)` for finite nonzero `y`. -/
noncomputable def goMod (x y : ℝ) : ℝ :=
  x - y * (if 0 ≤ x / y then (⌊x / y⌋ : ℝ) else (⌈x / y⌉ : ℝ))

/-- Embedding of `Camera.wrapAngles`: reduce `rotationY` modulo `2π` into
`[0, 2π)`. -/
noncomputable def wrapAngles (c : Camera) : Camera :=
  let r := goMod c.rotationY (2 * Real.pi)
  if r < 0 then { c with rotationY := r + 2 * Real.pi } else { c with rotationY := r }

/-- Embedding of `Camera.HandleMouseDown`. -/
def HandleMouseDown (c : Camera) (x y : ℝ) : Camera :=
  { c with isMouseDown := true, lastMouseX := x, lastMouseY := y,
           velocityX := 0, velocityY := 0 }

/-- Embedding of `Camera.HandleMouseUp`. -/
def HandleMouseUp (c : Camera) : Camera :=
  { c with isMouseDown := false }

/-- Embedding of `Camera.HandleMouseMove`. -/
noncomputable def HandleMouseMove (c : Camera) (x y : ℝ) : Camera :=
  if c.isMouseDown = false then c
  else
    let dx := x - c.lastMouseX
    let dy := y - c.lastMouseY
    let c1 := { c with rotationY := c.rotationY - dx * 0.01,
                       rotationX := c.rotationX + dy * 0.01 }
    let c2 := clampRotation (wrapAngles c1)
    { c2 with velocityX := -dx * 0.5, velocityY := dy * 0.5,
              lastMouseX := x, lastMouseY := y }

/-- Embedding of `Camera.HandleMouseWheel`. -/
noncomputable def HandleMouseWheel (c : Camera) (deltaY : ℝ) : Camera :=
  let z := if deltaY < 0 then c.zoom * 1.1 else c.zoom / 1.1
  { c with zoom := max c.minZoom (min z c.maxZoom) }

/-- Embedding of `Camera.ApplyInertia`. -/
noncomputable def ApplyInertia (c : Camera) : Camera :=
  if c.isMouseDown = false ∧ (c.velocityX ≠ 0 ∨ c.velocityY ≠ 0) then
    let c1 := { c with rotationY := c.rotationY + c.velocityX * 0.01,
                       rotationX := c.rotationX + c.velocityY * 0.01 }
    let c2 := wrapAngles c1
    let c3 := { c2 with velocityX := c2.velocityX * c.damping,
                        velocityY := c2.velocityY * c.damping }
    clampRotation c3
  else c

/-- The camera position computed at the start of `Camera.GetViewMatrix`
(spherical coordinates around the origin). -/
noncomputable def cameraPosition (c : Camera) : List ℝ :=
  let effectiveDistance := c.distance / c.zoom
  [effectiveDistance * (Real.sin c.rotationY * Real.cos c.rotationX),
   effectiveDistance * Real.sin c.rotationX,
   effectiveDistance * (Real.cos c.rotationY * Real.cos c.rotationX)]

/-- Embedding of `Camera.GetViewMatrix`: `LookAt(position, (0,0,0), (0,1,0))`. -/
noncomputable def GetViewMatrix (c : Camera) : Except String (List ℝ) :=
  LookAt (cameraPosition c) [0, 0, 0] [0, 1, 0]

/-- State invariant of the orbit camera: the clamp bounds are the constants
set by `NewCamera`, `rotationX` lies inside the clamp range, and `zoom`
lies inside the zoom range.  `distance` is tracked so the reachable-state
argument can use the construction-time distance. -/
def CamInv (d : ℝ) (c : Camera) : Prop :=
  c.distance = d ∧
  c.minRotationX = -(Real.pi / 2) * 0.999 ∧
  c.maxRotationX = Real.pi / 2 * 0.999 ∧
  c.minZoom = 0.1 ∧
  c.maxZoom = 10 ∧
  c.minRotationX ≤ c.rotationX ∧ c.rotationX ≤ c.maxRotationX ∧
  c.minZoom ≤ c.zoom ∧ c.zoom ≤ c.maxZoom

/-- One user-interaction event handled by the camera. -/
inductive CamEvent where
  | mouseDown (x y : ℝ) : CamEvent
  | mouseUp : CamEvent
  | mouseMove (x y : ℝ) : CamEvent
  | wheel (deltaY : ℝ) : CamEvent
  | inertia : CamEvent

/-- Dispatch one event to the corresponding camera handler. -/
noncomputable def stepCamera (c : Camera) : CamEvent → Camera
  | .mouseDown x y => HandleMouseDown c x y
  | .mouseUp => HandleMouseUp c
  | .mouseMove x y => HandleMouseMove c x y
  | .wheel dy => HandleMouseWheel c dy
  | .inertia => ApplyInertia c

/-- Run a sequence of events against a camera. -/
noncomputable def runCamera (c : Camera) (es : List CamEvent) : Camera :=
  es.foldl stepCamera c

end PointCloud

namespace Glf32

/-! Shared helper lemmas. -/

theorem range16_eq :
    List.range 16 = [0, 1, 2, 3, 4, 5, 6, 7, 8, 9, 10, 11, 12, 13, 14, 15] := by
  decide

theorem range4_eq : List.range 4 = [0, 1, 2, 3] := by
  decide

theorem exists_list3 (v : List ℝ) (h : v.length = 3) :
    ∃ a b c, v = [a, b, c] := by
  rcases v with _ | ⟨a, _ | ⟨b, _ | ⟨c, _ | ⟨d, t⟩⟩⟩⟩ <;>
    first
      | exact ⟨a, b, c, rfl⟩
      | (simp only [List.length_cons, List.length_nil] at h; omega)

theorem exists_list16 (m : List ℝ) (h : m.length = 16) :
    ∃ x0 x1 x2 x3 x4 x5 x6 x7 x8 x9 x10 x11 x12 x13 x14 x15,
      m = [x0, x1, x2, x3, x4, x5, x6, x7, x8, x9, x10, x11, x12, x13, x14, x15] := by
  rcases m with _ | ⟨x0, _ | ⟨x1, _ | ⟨x2, _ | ⟨x3, _ | ⟨x4, _ | ⟨x5, _ | ⟨x6, _ | ⟨x7,
    _ | ⟨x8, _ | ⟨x9, _ | ⟨x10, _ | ⟨x11, _ | ⟨x12, _ | ⟨x13, _ | ⟨x14, _ | ⟨x15,
    _ | ⟨y, t⟩⟩⟩⟩⟩⟩⟩⟩⟩⟩⟩⟩⟩⟩⟩⟩⟩ <;>
    first
      | exact ⟨x0, x1, x2, x3, x4, x5, x6, x7, x8, x9, x10, x11, x12, x13, x14, x15, rfl⟩
      | (simp only [List.length_cons, List.length_nil] at h; omega)

set_option maxHeartbeats 1000000 in
theorem mulCore_getD (a b : List ℝ) {row col : ℕ} (hr : row < 4) (hc : col < 4) :
    (mulCore a b).getD (col * 4 + row) 0
      = ∑ k ∈ Finset.range 4, a.getD (k * 4 + row) 0 * b.getD (col * 4 + k) 0 := by
  interval_cases row <;> interval_cases col <;>
    · simp [mulCore, range16_eq, range4_eq, Finset.sum_range_succ, List.getD]
      try ring

set_option maxHeartbeats 1000000 in
theorem mulCore_action (a b : List ℝ) (x y z w : ℝ) :
    mulVec4Spec (mulCore a b) x y z w
      = mulVec4SpecP a (mulVec4Spec b x y z w) := by
  simp [mulVec4Spec, mulVec4SpecP, mulCore, range16_eq, range4_eq, Prod.ext_iff]
  refine ⟨by ring, by ring, by ring, by ring⟩

theorem mulCore_length (a b : List ℝ) : (mulCore a b).length = 16 := by
  simp [mulCore]

/-- C1: `MultiplyMatrices(a, b)` returns the standard column-major matrix
product `a*b`: the result element at index `col*4+row` is
`Σ_k a[k*4+row] * b[col*4+k]`; consequently the product acts on a
homogeneous column vector as "apply `b`, then `a`", and the MVP chain
`multiply(projection, multiply(view, model))` acts as model, then view,
then projection. -/
theorem multiplyMatrices_spec (a b : List ℝ) (ha : a.length = 16) (hb : b.length = 16) :
    MultiplyMatrices a b = .ok (mulCore a b) ∧
    (mulCore a b).length = 16 ∧
    (∀ row col : ℕ, row < 4 → col < 4 →
      (mulCore a b).getD (col * 4 + row) 0
        = ∑ k ∈ Finset.range 4, a.getD (k * 4 + row) 0 * b.getD (col * 4 + k) 0) ∧
    (∀ x y z w : ℝ,
      mulVec4Spec (mulCore a b) x y z w = mulVec4SpecP a (mulVec4Spec b x y z w)) ∧
    (∀ proj view model : List ℝ, ∀ x y z w : ℝ,
      mulVec4Spec (mulCore proj (mulCore view model)) x y z w
        = mulVec4SpecP proj (mulVec4SpecP view (mulVec4Spec model x y z w))) := by
  refine ⟨by simp [MultiplyMatrices, ha, hb], mulCore_length a b,
    fun row col hr hc => mulCore_getD a b hr hc,
    fun x y z w => mulCore_action a b x y z w,
    fun proj view model x y z w => ?_⟩
  rw [mulCore_action]
  simp only [mulVec4SpecP]
  rw [mulCore_action]
  simp only [mulVec4SpecP]

/-- Witness for C1 at the concrete input `a = b = Identity`. -/
theorem multiplyMatrices_spec_witness :
    Identity.length = 16 ∧
    MultiplyMatrices Identity Identity = .ok (mulCore Identity Identity) :=
  ⟨rfl, (multiplyMatrices_spec Identity Identity rfl rfl).1⟩

/-- C2: `Perspective(fov, aspect, near, far)` returns exactly the 16-element
column-major matrix whose nonzero entries are `f/aspect` at index 0, `f` at
index 5, `(far+near)*nf` at index 10, `-1` at index 11 and `(2*far*near)*nf`
at index 14, where `f = 1/tan(fov/2)` and `nf = 1/(near-far)`; all other
entries are 0. -/
theorem perspective_spec (fov aspect near far : ℝ)
    (hnear : 0 < near) (hfar : near < far) :
    (Perspective fov aspect near far).length = 16 ∧
    (Perspective fov aspect near far).getD 0 0 = (1 / Real.tan (fov / 2)) / aspect ∧
    (Perspective fov aspect near far).getD 5 0 = 1 / Real.tan (fov / 2) ∧
    (Perspective fov aspect near far).getD 10 0 = (far + near) * (1 / (near - far)) ∧
    (Perspective fov aspect near far).getD 11 0 = -1 ∧
    (Perspective fov aspect near far).getD 14 0 = (2 * far * near) * (1 / (near - far)) ∧
    ∀ i : ℕ, i < 16 → i ≠ 0 → i ≠ 5 → i ≠ 10 → i ≠ 11 → i ≠ 14 →
      (Perspective fov aspect near far).getD i 0 = 0 := by
  refine ⟨rfl, rfl, rfl, rfl, rfl, rfl, fun i hi h0 h5 h10 h11 h14 => ?_⟩
  interval_cases i <;> simp_all [Perspective]

/-- Witness for C2 at `fov = 1`, `aspect = 1`, `near = 1`, `far = 2`. -/
theorem perspective_spec_witness :
    (0 : ℝ) < 1 ∧ (1 : ℝ) < 2 ∧
    (Perspective 1 1 1 2).getD 11 0 = -1 :=
  ⟨by norm_num, by norm_num,
    ((perspective_spec 1 1 1 2 (by norm_num) (by norm_num)).2.2.2.2).1⟩

/-- C7: for a length-3 vector with positive magnitude, `Normalize` returns
`v / |v|`, whose magnitude is exactly 1 (hence within `1e-6`); the zero
vector is mapped to the zero vector as a defined degenerate-case result,
not an error. -/
theorem normalize_spec (v : List ℝ) (h3 : v.length = 3) :
    (0 < norm3 v →
      Normalize v = .ok [v.getD 0 0 / norm3 v, v.getD 1 0 / norm3 v, v.getD 2 0 / norm3 v] ∧
      norm3 [v.getD 0 0 / norm3 v, v.getD 1 0 / norm3 v, v.getD 2 0 / norm3 v] = 1) ∧
    Normalize [(0 : ℝ), 0, 0] = .ok [0, 0, 0] := by
  constructor
  · intro hpos
    obtain ⟨a, b, c, rfl⟩ := exists_list3 v h3
    have hs : 0 < a * a + b * b + c * c := by
      have := hpos
      simp only [norm3, List.getD_cons_zero, List.getD_cons_succ] at this
      exact Real.sqrt_pos.mp this
    have hl : norm3 [a, b, c] * norm3 [a, b, c] = a * a + b * b + c * c := by
      simp only [norm3, List.getD_cons_zero, List.getD_cons_succ]
      exact Real.mul_self_sqrt hs.le
    constructor
    · simp [Normalize, normalize3, hpos]
    · have key : [a, b, c].getD 0 0 / norm3 [a, b, c] * ([a, b, c].getD 0 0 / norm3 [a, b, c])
          + [a, b, c].getD 1 0 / norm3 [a, b, c] * ([a, b, c].getD 1 0 / norm3 [a, b, c])
          + [a, b, c].getD 2 0 / norm3 [a, b, c] * ([a, b, c].getD 2 0 / norm3 [a, b, c])
          = 1 := by
        simp only [List.getD_cons_zero, List.getD_cons_succ]
        have : a / norm3 [a, b, c] * (a / norm3 [a, b, c])
            + b / norm3 [a, b, c] * (b / norm3 [a, b, c])
            + c / norm3 [a, b, c] * (c / norm3 [a, b, c])
            = (a * a + b * b + c * c) / (norm3 [a, b, c] * norm3 [a, b, c]) := by
          ring
        rw [this, hl]
        exact div_self hs.ne'
      simp only [norm3, List.getD_cons_zero, List.getD_cons_succ] at key ⊢
      rw [key, Real.sqrt_one]
  · simp [Normalize, normalize3, norm3]

/-- Witness for C7 at `v = (3,4,0)` (magnitude 5) and at the zero vector. -/
theorem normalize_spec_witness :
    0 < norm3 [(3 : ℝ), 4, 0] ∧
    Normalize [(3 : ℝ), 4, 0]
      = .ok [[(3 : ℝ), 4, 0].getD 0 0 / norm3 [(3 : ℝ), 4, 0],
             [(3 : ℝ), 4, 0].getD 1 0 / norm3 [(3 : ℝ), 4, 0],
             [(3 : ℝ), 4, 0].getD 2 0 / norm3 [(3 : ℝ), 4, 0]] ∧
    Normalize [(0 : ℝ), 0, 0] = .ok [0, 0, 0] := by
  have hpos : 0 < norm3 [(3 : ℝ), 4, 0] := by
    simp only [norm3, List.getD_cons_zero, List.getD_cons_succ]
    positivity
  exact ⟨hpos, ((normalize_spec [3, 4, 0] rfl).1 hpos).1, (normalize_spec [3, 4, 0] rfl).2⟩

/-- C8: the rotation constructors use exactly the code's column-major sign
conventions (reading each 2x2 block column by column): `RotateX` has
`(c,s)` in column 1 and `(-s,c)` in column 2 of the Y/Z block, `RotateY`
has `(c,-s)` in column 0 and `(s,c)` in column 2 of the X/Z block, `RotateZ`
has `(c,s)` in column 0 and `(-s,c)` in column 1 of the X/Y block; and
applying `RotateY(π/2)` to the point `(1,0,0)` via `TransformVertices`
yields exactly `(0,0,-1)`, fixing the right-handed convention. -/
theorem rotations_spec (angle : ℝ) :
    ((RotateX angle).getD 5 0 = Real.cos angle ∧ (RotateX angle).getD 6 0 = Real.sin angle ∧
     (RotateX angle).getD 9 0 = -Real.sin angle ∧ (RotateX angle).getD 10 0 = Real.cos angle) ∧
    ((RotateY angle).getD 0 0 = Real.cos angle ∧ (RotateY angle).getD 2 0 = -Real.sin angle ∧
     (RotateY angle).getD 8 0 = Real.sin angle ∧ (RotateY angle).getD 10 0 = Real.cos angle) ∧
    ((RotateZ angle).getD 0 0 = Real.cos angle ∧ (RotateZ angle).getD 1 0 = Real.sin angle ∧
     (RotateZ angle).getD 4 0 = -Real.sin angle ∧ (RotateZ angle).getD 5 0 = Real.cos angle) ∧
    TransformVertices [1, 0, 0] (RotateY (Real.pi / 2)) = .ok [0, 0, -1] := by
  refine ⟨⟨rfl, rfl, rfl, rfl⟩, ⟨rfl, rfl, rfl, rfl⟩, ⟨rfl, rfl, rfl, rfl⟩, ?_⟩
  norm_num [TransformVertices, RotateY, tvCore, transformTriple,
    Real.cos_pi_div_two, Real.sin_pi_div_two]

theorem transformTriple_eq_spec (m : List ℝ) (x y z : ℝ) :
    transformTriple m x y z = pointTransformSpec m x y z := by
  by_cases h : m.getD 3 0 * x + m.getD 7 0 * y + m.getD 11 0 * z + m.getD 15 0 * 1 = 0 <;>
    simp [transformTriple, pointTransformSpec, mulVec4Spec, h]

theorem tvCore_length (m : List ℝ) :
    ∀ coords : List ℝ, (tvCore m coords).length = coords.length
  | [] => rfl
  | [_] => rfl
  | [_, _] => rfl
  | _ :: _ :: _ :: rest => by simp [tvCore, tvCore_length m rest]

theorem getD_cons3 (a b c : ℝ) (l : List ℝ) (n : ℕ) :
    (a :: b :: c :: l).getD (n + 3) 0 = l.getD n 0 := by
  rw [show n + 3 = n + 2 + 1 by omega, List.getD_cons_succ,
      show n + 2 = n + 1 + 1 by omega, List.getD_cons_succ, List.getD_cons_succ]

theorem tvCore_getD (m : List ℝ) :
    ∀ (i : ℕ) (coords : List ℝ), 3 * i + 2 < coords.length →
      ((tvCore m coords).getD (3 * i) 0, (tvCore m coords).getD (3 * i + 1) 0,
       (tvCore m coords).getD (3 * i + 2) 0)
        = transformTriple m (coords.getD (3 * i) 0) (coords.getD (3 * i + 1) 0)
            (coords.getD (3 * i + 2) 0) := by
  intro i
  induction i with
  | zero =>
      intro coords h
      rcases coords with _ | ⟨x, _ | ⟨y, _ | ⟨z, rest⟩⟩⟩ <;>
        first
          | (simp only [List.length_cons, List.length_nil] at h; omega)
          | simp [tvCore]
  | succ i ih =>
      intro coords h
      rcases coords with _ | ⟨x, _ | ⟨y, _ | ⟨z, rest⟩⟩⟩ <;>
        try (simp only [List.length_cons, List.length_nil] at h; omega)
      have h2 : 3 * i + 2 < rest.length := by
        simp only [List.length_cons] at h; omega
      simp only [tvCore]
      rw [show 3 * (i + 1) = 3 * i + 3 by ring]
      rw [show 3 * i + 3 + 1 = 3 * i + 1 + 3 by omega]
      rw [show 3 * i + 3 + 2 = 3 * i + 2 + 3 by omega]
      simp only [getD_cons3]
      exact ih rest h2

/-- C3: `LookAt` builds its view matrix from `forward = normalize(center -
eye)`, `side = normalize(cross(forward, up))`, `trueUp = cross(side,
forward)` with translation column `(-dot(side,eye), -dot(trueUp,eye),
dot(forward,eye))`; and `LookAt((0,0,5), (0,0,0), (0,1,0))` transforms the
world point `(0,0,0)` to the view-space point `(0,0,-5)` exactly (hence
within `1e-6` per component). -/
theorem lookAt_spec (eye center up : List ℝ)
    (he : eye.length = 3) (hc : center.length = 3) (hu : up.length = 3) :
    (LookAt eye center up = .ok (
      let f := normalize3 (subtract3 center eye)
      let s := normalize3 (cross3 f up)
      let u := cross3 s f
      [s.getD 0 0, u.getD 0 0, -(f.getD 0 0), 0,
       s.getD 1 0, u.getD 1 0, -(f.getD 1 0), 0,
       s.getD 2 0, u.getD 2 0, -(f.getD 2 0), 0,
       -(dot3 s eye), -(dot3 u eye), dot3 f eye, 1])) ∧
    TransformVertices [0, 0, 0] (lookAtCore [0, 0, 5] [0, 0, 0] [0, 1, 0])
      = .ok [0, 0, -5] := by
  constructor
  · simp only [LookAt, he, hc, hu, and_self, if_true]
    rfl
  · have h25 : Real.sqrt 25 = 5 := by
      rw [show (25 : ℝ) = 5 ^ 2 by norm_num]
      exact Real.sqrt_sq (by norm_num)
    norm_num [lookAtCore, subtract3, normalize3, norm3, cross3, dot3, h25,
      TransformVertices, tvCore, transformTriple]

/-- Witness for C3 at the concrete camera `eye = (0,0,5)`, `center = origin`,
`up = (0,1,0)`. -/
theorem lookAt_spec_witness :
    TransformVertices [0, 0, 0] (lookAtCore [0, 0, 5] [0, 0, 0] [0, 1, 0])
      = .ok [0, 0, -5] :=
  (lookAt_spec [0, 0, 5] [0, 0, 0] [0, 1, 0] rfl rfl rfl).2

/-- C4: for `coords` of length a multiple of 3 and a 16-element matrix,
`TransformVertices` returns a slice of the same length in which every
consecutive triple has been treated as the homogeneous point `(x,y,z,1)`,
multiplied by `m`, and divided by the resulting `w` — except that a vertex
whose `w` is 0 is set to `(0,0,0)` rather than causing a failure. -/
theorem transformVertices_spec (coords m : List ℝ)
    (hc : coords.length % 3 = 0) (hm : m.length = 16) :
    TransformVertices coords m = .ok (tvCore m coords) ∧
    (tvCore m coords).length = coords.length ∧
    (∀ i : ℕ, 3 * i + 2 < coords.length →
      ((tvCore m coords).getD (3 * i) 0, (tvCore m coords).getD (3 * i + 1) 0,
       (tvCore m coords).getD (3 * i + 2) 0)
        = pointTransformSpec m (coords.getD (3 * i) 0) (coords.getD (3 * i + 1) 0)
            (coords.getD (3 * i + 2) 0)) := by
  refine ⟨by simp [TransformVertices, hc, hm], tvCore_length m coords, fun i hi => ?_⟩
  rw [tvCore_getD m i coords hi, transformTriple_eq_spec]

/-- Witness for C4 at `coords = (1,2,3)`, `m = Identity`. -/
theorem transformVertices_spec_witness :
    TransformVertices [1, 2, 3] Identity = .ok (tvCore Identity [1, 2, 3]) :=
  (transformVertices_spec [1, 2, 3] Identity rfl rfl).1

/-- C9: multiplying any 16-element matrix by the identity on either side
returns the matrix itself (exactly, hence within `1e-6` per element). -/
theorem multiply_identity_spec (m : List ℝ) (h : m.length = 16) :
    MultiplyMatrices m Identity = .ok m ∧ MultiplyMatrices Identity m = .ok m := by
  obtain ⟨x0, x1, x2, x3, x4, x5, x6, x7, x8, x9, x10, x11, x12, x13, x14, x15, rfl⟩ :=
    exists_list16 m h
  constructor <;>
    · simp [MultiplyMatrices, Identity, mulCore, range16_eq, range4_eq]

/-- Witness for C9 at the concrete matrix `Translate 1 2 3`. -/
theorem multiply_identity_spec_witness :
    MultiplyMatrices (Translate 1 2 3) Identity = .ok (Translate 1 2 3) ∧
    MultiplyMatrices Identity (Translate 1 2 3) = .ok (Translate 1 2 3) :=
  multiply_identity_spec (Translate 1 2 3) rfl

/-- C5: for every non-empty supported host slice, `UploadSliceToGL` stages
exactly `element_count * element_size` bytes with no padding (`N*4` for
float32, `N*2` for uint16, `N*4` for uint32), and the GPU-side typed view
matches the host element type exactly (`Float32Array` / `Uint16Array` /
`Uint32Array`), never widened or narrowed; the staged byte count is also
the byte count handed to `bufferData`. -/
theorem uploadSliceToGL_spec (s : HostSlice) (target : String)
    (hne : s.len ≠ 0) (hsup : s.supported = true) :
    ∃ out : UploadOutcome,
      UploadSliceToGL s target = .ok out ∧
      out.byteLen = s.len * s.elemSize ∧
      out.typedArrayType = s.typedName ∧
      out.calls = [.createBuffer, .bindBuffer target, .copyBytesToJS out.byteLen,
                   .newTypedArray s.typedName, .bufferData target s.typedName out.byteLen] := by
  cases s <;>
    simp_all [UploadSliceToGL, HostSlice.len, HostSlice.elemSize, HostSlice.typedName,
      HostSlice.supported, Nat.mul_comm]

/-- Witness for C5 at a one-element float32 slice. -/
theorem uploadSliceToGL_spec_witness :
    (HostSlice.f32 [1]).len ≠ 0 ∧ (HostSlice.f32 [1]).supported = true ∧
    ∃ out : UploadOutcome,
      UploadSliceToGL (HostSlice.f32 [1]) "ARRAY_BUFFER" = .ok out ∧
      out.byteLen = (HostSlice.f32 [1]).len * (HostSlice.f32 [1]).elemSize ∧
      out.typedArrayType = (HostSlice.f32 [1]).typedName ∧
      out.calls = [.createBuffer, .bindBuffer "ARRAY_BUFFER", .copyBytesToJS out.byteLen,
                   .newTypedArray (HostSlice.f32 [1]).typedName,
                   .bufferData "ARRAY_BUFFER" (HostSlice.f32 [1]).typedName out.byteLen] :=
  ⟨by simp [HostSlice.len], rfl,
    uploadSliceToGL_spec (HostSlice.f32 [1]) "ARRAY_BUFFER" (by simp [HostSlice.len]) rfl⟩

/-- C6: every precondition violation is an immediately reported failure
(`panic`, modelled as `Except.error`), never a silently coerced result: a
vector argument of length other than 3 (in `Subtract`, `Normalize`,
`Cross`, `Dot`, `LookAt`), a matrix argument of length other than 16 (in
`MultiplyMatrices`, `TransformVertices`), an empty slice or a slice of
unsupported element type in `UploadSliceToGL`.  For the upload the error
result carries no `UploadOutcome` and hence no GL-call trace: the failure
happens before any GPU buffer is created or any bytes are staged. -/
theorem precondition_panics_spec :
    (∀ a b : List ℝ, ¬(a.length = 3 ∧ b.length = 3) →
      Subtract a b = .error "Subtract: input vectors must be Vec3 (length 3)") ∧
    (∀ v : List ℝ, v.length ≠ 3 →
      Normalize v = .error "Normalize: input vector must be Vec3 (length 3)") ∧
    (∀ a b : List ℝ, ¬(a.length = 3 ∧ b.length = 3) →
      Cross a b = .error "Cross: input vectors must be Vec3 (length 3)") ∧
    (∀ a b : List ℝ, ¬(a.length = 3 ∧ b.length = 3) →
      Dot a b = .error "Dot: input vectors must be Vec3 (length 3)") ∧
    (∀ eye center up : List ℝ, ¬(eye.length = 3 ∧ center.length = 3 ∧ up.length = 3) →
      LookAt eye center up = .error "LookAt: input vectors must be Vec3 (length 3)") ∧
    (∀ a b : List ℝ, ¬(a.length = 16 ∧ b.length = 16) →
      MultiplyMatrices a b
        = .error "MultiplyMatrices: input matrices must be Mat4 (length 16)") ∧
    (∀ coords m : List ℝ, m.length ≠ 16 →
      TransformVertices coords m
        = .error "TransformVertices: transformation matrix must be Mat4 (length 16)") ∧
    (∀ coords m : List ℝ, m.length = 16 → coords.length % 3 ≠ 0 →
      TransformVertices coords m
        = .error "TransformVertices: coords slice length must be a multiple of 3") ∧
    (∀ (s : HostSlice) (target : String), s.len = 0 →
      UploadSliceToGL s target = .error "UploadSliceToGL: data must be a non-empty slice") ∧
    (∀ (tyName : String) (n : ℕ) (target : String), n ≠ 0 →
      UploadSliceToGL (.unsupported tyName n) target
        = .error ("UploadSliceToGL: unsupported slice type " ++ tyName)) := by
  refine ⟨fun a b h => by simp [Subtract, h],
    fun v h => by simp [Normalize, h],
    fun a b h => by simp [Cross, h],
    fun a b h => by simp [Dot, h],
    fun eye center up h => by simp [LookAt, h],
    fun a b h => by simp [MultiplyMatrices, h],
    fun coords m h => by simp [TransformVertices, h],
    fun coords m hm h => by simp [TransformVertices, hm, h],
    fun s target h => by simp [UploadSliceToGL, h],
    fun tyName n target h => by simp [UploadSliceToGL, HostSlice.len, h]⟩

/-- Witness for C6: concrete violations of each guard. -/
theorem precondition_panics_spec_witness :
    Normalize [(1 : ℝ), 2] = .error "Normalize: input vector must be Vec3 (length 3)" ∧
    LookAt [(1 : ℝ), 2] [0, 0, 0] [0, 1, 0]
      = .error "LookAt: input vectors must be Vec3 (length 3)" ∧
    MultiplyMatrices [(1 : ℝ)] Identity
      = .error "MultiplyMatrices: input matrices must be Mat4 (length 16)" ∧
    UploadSliceToGL (HostSlice.f32 []) "ARRAY_BUFFER"
      = .error "UploadSliceToGL: data must be a non-empty slice" ∧
    UploadSliceToGL (HostSlice.unsupported "[]int8" 5) "ARRAY_BUFFER"
      = .error ("UploadSliceToGL: unsupported slice type " ++ "[]int8") :=
  ⟨precondition_panics_spec.2.1 [1, 2] (by simp),
    precondition_panics_spec.2.2.2.2.1 [1, 2] [0, 0, 0] [0, 1, 0] (by simp),
    precondition_panics_spec.2.2.2.2.2.1 [1] Identity (by simp [Identity]),
    precondition_panics_spec.2.2.2.2.2.2.2.2.1 (HostSlice.f32 []) "ARRAY_BUFFER"
      (by simp [HostSlice.len]),
    precondition_panics_spec.2.2.2.2.2.2.2.2.2 "[]int8" 5 "ARRAY_BUFFER" (by simp)⟩

end Glf32

namespace PointCloud

open Glf32

theorem clampRotation_preserve (c : Camera) :
    (clampRotation c).distance = c.distance ∧
    (clampRotation c).minRotationX = c.minRotationX ∧
    (clampRotation c).maxRotationX = c.maxRotationX ∧
    (clampRotation c).minZoom = c.minZoom ∧
    (clampRotation c).maxZoom = c.maxZoom ∧
    (clampRotation c).zoom = c.zoom := by
  simp only [clampRotation]
  split_ifs <;> simp

theorem clampRotation_bounds (c : Camera) (h : c.minRotationX ≤ c.maxRotationX) :
    c.minRotationX ≤ (clampRotation c).rotationX ∧
    (clampRotation c).rotationX ≤ c.maxRotationX := by
  simp only [clampRotation]
  split_ifs <;> constructor <;> simp_all <;> linarith

theorem wrapAngles_preserve (c : Camera) :
    (wrapAngles c).distance = c.distance ∧
    (wrapAngles c).rotationX = c.rotationX ∧
    (wrapAngles c).minRotationX = c.minRotationX ∧
    (wrapAngles c).maxRotationX = c.maxRotationX ∧
    (wrapAngles c).minZoom = c.minZoom ∧
    (wrapAngles c).maxZoom = c.maxZoom ∧
    (wrapAngles c).zoom = c.zoom := by
  simp only [wrapAngles]
  split_ifs <;> simp

theorem newCamera_inv (d : ℝ) : CamInv d (NewCamera d) := by
  refine ⟨rfl, rfl, rfl, rfl, by norm_num [NewCamera], ?_, ?_, ?_, ?_⟩ <;>
    simp only [NewCamera] <;> nlinarith [Real.pi_gt_three]

theorem clamped_inv (d : ℝ) (cm : Camera)
    (hdist : cm.distance = d)
    (hmin : cm.minRotationX = -(Real.pi / 2) * 0.999)
    (hmax : cm.maxRotationX = Real.pi / 2 * 0.999)
    (hminz : cm.minZoom = 0.1) (hmaxz : cm.maxZoom = 10)
    (hz1 : cm.minZoom ≤ cm.zoom) (hz2 : cm.zoom ≤ cm.maxZoom) :
    CamInv d (clampRotation cm) := by
  have hmm : cm.minRotationX ≤ cm.maxRotationX := by
    rw [hmin, hmax]; nlinarith [Real.pi_pos]
  obtain ⟨k1, k2, k3, k4, k5, k6⟩ := clampRotation_preserve cm
  have hb := clampRotation_bounds cm hmm
  exact ⟨k1.trans hdist, k2.trans hmin, k3.trans hmax, k4.trans hminz, k5.trans hmaxz,
    k2.symm ▸ hb.1, k3.symm ▸ hb.2,
    by rw [k4, k6]; exact hz1, by rw [k6, k5]; exact hz2⟩

theorem stepCamera_inv (d : ℝ) (c : Camera) (e : CamEvent) (h : CamInv d c) :
    CamInv d (stepCamera c e) := by
  obtain ⟨hd, hmin, hmax, hminz, hmaxz, h1, h2, h3, h4⟩ := h
  cases e with
  | mouseDown x y =>
      exact ⟨hd, hmin, hmax, hminz, hmaxz, h1, h2, h3, h4⟩
  | mouseUp =>
      exact ⟨hd, hmin, hmax, hminz, hmaxz, h1, h2, h3, h4⟩
  | mouseMove x y =>
      simp only [stepCamera, HandleMouseMove]
      split_ifs with hmd
      · exact ⟨hd, hmin, hmax, hminz, hmaxz, h1, h2, h3, h4⟩
      · have hw := wrapAngles_preserve
          { c with rotationY := c.rotationY - (x - c.lastMouseX) * 0.01,
                   rotationX := c.rotationX + (y - c.lastMouseY) * 0.01 }
        exact clamped_inv d
          (wrapAngles { c with rotationY := c.rotationY - (x - c.lastMouseX) * 0.01,
                               rotationX := c.rotationX + (y - c.lastMouseY) * 0.01 })
          (hw.1.trans hd) (hw.2.2.1.trans hmin) (hw.2.2.2.1.trans hmax)
          (hw.2.2.2.2.1.trans hminz) (hw.2.2.2.2.2.1.trans hmaxz)
          (hw.2.2.2.2.1.trans_le (h3.trans_eq hw.2.2.2.2.2.2.symm))
          (hw.2.2.2.2.2.2.trans_le (h4.trans_eq hw.2.2.2.2.2.1.symm))
  | wheel dy =>
      simp only [stepCamera, HandleMouseWheel]
      have hzz : c.minZoom ≤ c.maxZoom := by rw [hminz, hmaxz]; norm_num
      exact ⟨hd, hmin, hmax, hminz, hmaxz, h1, h2, le_max_left _ _,
        max_le hzz (min_le_right _ _)⟩
  | inertia =>
      simp only [stepCamera, ApplyInertia]
      split_ifs with hcond
      · have hw := wrapAngles_preserve
          { c with rotationY := c.rotationY + c.velocityX * 0.01,
                   rotationX := c.rotationX + c.velocityY * 0.01 }
        exact clamped_inv d _ (hw.1.trans hd) (hw.2.2.1.trans hmin) (hw.2.2.2.1.trans hmax)
          (hw.2.2.2.2.1.trans hminz) (hw.2.2.2.2.2.1.trans hmaxz)
          (hw.2.2.2.2.1.trans_le (h3.trans_eq hw.2.2.2.2.2.2.symm))
          (hw.2.2.2.2.2.2.trans_le (h4.trans_eq hw.2.2.2.2.2.1.symm))
      · exact ⟨hd, hmin, hmax, hminz, hmaxz, h1, h2, h3, h4⟩

theorem runCamera_inv (d : ℝ) (es : List CamEvent) (c : Camera) (h : CamInv d c) :
    CamInv d (runCamera c es) := by
  induction es generalizing c with
  | nil => exact h
  | cons e es ih => exact ih (stepCamera c e) (stepCamera_inv d c e h)

theorem camera_forward_not_parallel (c : Camera) (hd : c.distance ≠ 0)
    (hmin : -(Real.pi / 2) * 0.999 ≤ c.rotationX)
    (hmax : c.rotationX ≤ Real.pi / 2 * 0.999)
    (hz1 : (0.1 : ℝ) ≤ c.zoom) (hz2 : c.zoom ≤ 10) :
    cross3 (normalize3 (subtract3 [0, 0, 0] (cameraPosition c))) [0, 1, 0]
      ≠ [0, 0, 0] := by
  have hzpos : (0 : ℝ) < c.zoom := by linarith
  have hEne : c.distance / c.zoom ≠ 0 := div_ne_zero hd (ne_of_gt hzpos)
  have hCX : 0 < Real.cos c.rotationX := by
    apply Real.cos_pos_of_mem_Ioo
    constructor <;> nlinarith [Real.pi_pos]
  simp only [cameraPosition, subtract3, normalize3, norm3, cross3,
    List.getD_cons_zero, List.getD_cons_succ]
  set p0 := c.distance / c.zoom * (Real.sin c.rotationY * Real.cos c.rotationX) with hp0
  set p1 := c.distance / c.zoom * Real.sin c.rotationX with hp1
  set p2 := c.distance / c.zoom * (Real.cos c.rotationY * Real.cos c.rotationX) with hp2
  have hE2 : 0 < (c.distance / c.zoom) ^ 2 :=
    (sq_nonneg _).lt_of_ne (Ne.symm (pow_ne_zero 2 hEne))
  have hsc : Real.sin c.rotationY ^ 2 + Real.cos c.rotationY ^ 2 = 1 :=
    Real.sin_sq_add_cos_sq _
  have hplane : 0 < p0 * p0 + p2 * p2 := by
    have hexp : p0 * p0 + p2 * p2
        = (c.distance / c.zoom) ^ 2 * Real.cos c.rotationX ^ 2
            * (Real.sin c.rotationY ^ 2 + Real.cos c.rotationY ^ 2) := by
      rw [hp0, hp2]; ring
    rw [hexp, hsc, mul_one]
    exact mul_pos hE2 (pow_pos hCX 2)
  have hsum : 0 < (0 - p0) * (0 - p0) + (0 - p1) * (0 - p1) + (0 - p2) * (0 - p2) := by
    nlinarith [sq_nonneg p1]
  have hl := Real.sqrt_pos.mpr hsum
  split_ifs with hcond
  · intro heq
    have hlne := ne_of_gt hl
    simp only [List.getD_cons_zero, List.getD_cons_succ, mul_zero, mul_one, zero_mul,
      sub_zero, zero_sub, neg_eq_zero, div_eq_zero_iff, neg_zero, sub_self,
      List.cons.injEq, and_true, true_and, eq_self_iff_true] at heq
    have hlne2 : ¬ Real.sqrt (-p0 * -p0 + -p1 * -p1 + -p2 * -p2) = 0 := by
      rw [show (-p0 * -p0 + -p1 * -p1 + -p2 * -p2 : ℝ)
          = (0 - p0) * (0 - p0) + (0 - p1) * (0 - p1) + (0 - p2) * (0 - p2) by ring]
      exact hlne
    obtain ⟨e1, e3⟩ := heq
    have hp2z : p2 = 0 := by
      rcases e1 with e1 | e1
      · exact e1
      · exact absurd e1 hlne2
    have hp0z : p0 = 0 := by
      rcases e3 with e3 | e3
      · exact e3
      · exact absurd e3 hlne2
    rw [hp0z, hp2z] at hplane
    norm_num at hplane
  · exact absurd hl hcond

/-- C10 (amended): for every Camera produced by `NewCamera` and every
sequence of mouse/wheel/inertia events, `rotationX` stays within
`[-π/2*0.999, π/2*0.999]` and `zoom` stays within `[0.1, 10]`; and whenever
the construction distance is nonzero, the forward vector
`normalize(center - eye)` that `GetViewMatrix` hands to `LookAt` is never
parallel to the up vector `(0,1,0)` (its cross product with up is nonzero),
so the degenerate `lookAt` case is unreachable through this camera. -/
theorem camera_invariant_spec (d : ℝ) (es : List CamEvent) :
    (-(Real.pi / 2) * 0.999 ≤ (runCamera (NewCamera d) es).rotationX ∧
     (runCamera (NewCamera d) es).rotationX ≤ Real.pi / 2 * 0.999) ∧
    ((0.1 : ℝ) ≤ (runCamera (NewCamera d) es).zoom ∧
     (runCamera (NewCamera d) es).zoom ≤ 10) ∧
    (d ≠ 0 →
      cross3 (normalize3 (subtract3 [0, 0, 0]
          (cameraPosition (runCamera (NewCamera d) es)))) [0, 1, 0]
        ≠ [0, 0, 0]) := by
  obtain ⟨hd, hmin, hmax, hminz, hmaxz, h1, h2, h3, h4⟩ :=
    runCamera_inv d es (NewCamera d) (newCamera_inv d)
  refine ⟨⟨hmin ▸ h1, hmax ▸ h2⟩, ⟨hminz ▸ h3, hmaxz ▸ h4⟩, fun hdne => ?_⟩
  exact camera_forward_not_parallel (runCamera (NewCamera d) es)
    (by rw [hd]; exact hdne) (hmin ▸ h1) (hmax ▸ h2) (hminz ▸ h3) (hmaxz ▸ h4)

/-- Witness for C10 at `distance = 1` and the empty event sequence. -/
theorem camera_invariant_spec_witness :
    (1 : ℝ) ≠ 0 ∧
    cross3 (normalize3 (subtract3 [0, 0, 0]
        (cameraPosition (runCamera (NewCamera 1) [])))) [0, 1, 0]
      ≠ [0, 0, 0] :=
  ⟨by norm_num, (camera_invariant_spec 1 []).2.2 (by norm_num)⟩

/-- Counterexample to C10 as stated: `NewCamera 0` is a Camera produced by
`NewCamera` (reached with the empty event sequence), yet the forward vector
its `GetViewMatrix` hands to `LookAt` is the zero vector, whose cross
product with the up vector `(0,1,0)` is zero — i.e. it is parallel to up,
so the degenerate `lookAt` case is reachable and the claim's "never"
fails at distance 0. -/
theorem camera_degenerate_counterexample :
    cross3 (normalize3 (subtract3 [0, 0, 0]
        (cameraPosition (runCamera (NewCamera 0) [])))) [0, 1, 0]
      = [0, 0, 0] := by
  norm_num [runCamera, cameraPosition, NewCamera, subtract3, normalize3, norm3, cross3]

end PointCloud
